import Mathlib

/-!
Shallow embedding of the Illien journaling app's core component (`src/App.tsx`,
the current version of the file): the Entry Selector / Autosave state machine.

The React component is modelled as an explicit state record (`AppState`) plus a
step function over discrete events.  React specifics are translated as follows:

* Each `useState` variable relevant to the autosave core becomes a field of
  `AppState` (presentation-only toggles such as `darkMode`, `showSettings` and
  `showSidebar` are outside the autosave core and are not modelled).
* The pending `setTimeout` debounce timer is a `TimerClosure` value recording
  the values the scheduled `saveEntry` callback closed over
  (`journalDirectory`, `currentEntry`, `content`) and its fixed delay (1000 ms).
  The `useEffect` cleanup `clearTimeout` is the `timer := none` reset performed
  whenever the effect re-runs.
* The debounced auto-save effect has dependencies
  `[content, journalDirectory, currentEntry, saveEntry]`, so it re-runs (cancel
  old timer, set status `unsaved`, start a fresh timer) on every content change
  and on every `currentEntry` change; `debounceEffect` models one such run.
* The `load_journal` invoke issued by the entry-loading effect is asynchronous:
  its issuance (`loadEntryStart`) records a `pendingLoad`, and its completion is
  a separate machine event (`Event.loadComplete`) that runs the continuation
  (`loadEntryResolve`) and then the debounce effect re-run that a content
  change triggers.  Only the newest outstanding load is tracked.
* `save_journal`, `list_journal_entries` and `delete_journal` invokes are
  awaited in straight-line code, so they complete within the step that issues
  them, with their results supplied by a `Backend` oracle.  Every backend
  invocation is also recorded in a `Call` trace so that theorems can speak
  about which Storage Backend operations were issued.
* `window.confirm` in `handleDeleteEntry` is an event parameter, and
  `console.error` diagnostics are recorded as `Call.consoleError`.
-/

/-- Entry type tag: `"daily" | "titled"` from the `JournalEntry` interface. -/
inductive EntryType where
  | daily
  | titled
deriving DecidableEq, Repr

/-- The `JournalEntry` interface of `App.tsx`. -/
structure JournalEntry where
  filename : String
  entry_type : EntryType
  title : String
  date : Option String
deriving DecidableEq, Repr

/-- The save-status enumeration `"saved" | "saving" | "unsaved"`. -/
inductive SaveStatus where
  | saved
  | saving
  | unsaved
deriving DecidableEq, Repr

/-- A pending debounce timer: the fixed delay passed to `setTimeout` and the
values the scheduled `saveEntry` callback closed over at scheduling time. -/
structure TimerClosure where
  delayMs : Nat
  dir : Option String
  entry : Option JournalEntry
  content : String
deriving DecidableEq, Repr

/-- The autosave-core state of the `App` component. -/
structure AppState where
  content : String
  journalDirectory : Option String
  saveStatus : SaveStatus
  newEntryTitle : String
  showNewEntryModal : Bool
  entries : List JournalEntry
  currentEntry : Option JournalEntry
  timer : Option TimerClosure
  pendingLoad : Option (String × String)
deriving DecidableEq, Repr

/-- A Storage Backend invocation or console diagnostic, recorded in the trace. -/
inductive Call where
  | load (filename directory : String)
  | save (filename content directory : String)
  | list (directory : String)
  | delete (filename directory : String)
  | consoleError (msg : String)
deriving DecidableEq, Repr

/-- Oracle giving the result of each Storage Backend operation. -/
structure Backend where
  load : String → String → Except Unit (Option String)
  save : String → String → String → Except Unit Unit
  list : String → Except Unit (List JournalEntry)
  delete : String → String → Except Unit Unit

/-! ### Filename sanitization (`handleCreateNewEntry`, lines 169-173)

JavaScript string helpers used by the sanitizer: `String.prototype.trim`, the
regex replacement `/[<>:"\/\\|?*]/g → "-"`, and `/\s+/g → " "`. -/

/-- Characters matched by the JavaScript whitespace class `\s`. -/
def jsWhitespaceChars : List Char :=
  ['\t', '\n', '\x0b', '\x0c', '\r', ' ', ' ', ' ',
   ' ', ' ', ' ', ' ', ' ', ' ', ' ',
   ' ', ' ', ' ', ' ', ' ', ' ', ' ',
   ' ', '　', '﻿']

/-- Whether a character is JavaScript `\s` whitespace. -/
def jsWhitespace (c : Char) : Bool := jsWhitespaceChars.contains c

/-- Drop leading JavaScript whitespace from a character list. -/
def jsTrimLeftAux : List Char → List Char
  | [] => []
  | c :: cs => if jsWhitespace c then jsTrimLeftAux cs else c :: cs

/-- JavaScript `String.prototype.trim`: strip `\s` from both ends. -/
def jsTrim (s : String) : String :=
  ⟨(jsTrimLeftAux (jsTrimLeftAux s.data).reverse).reverse⟩

/-- The character class `[<>:"/\\|?*]` of the sanitizing regex. -/
def forbiddenFilenameChars : List Char :=
  ['<', '>', ':', '"', '/', '\\', '|', '?', '*']

/-- The replacement `.replace(/[<>:"\/\\|?*]/g, "-")`: each matched character
is replaced individually by a dash. -/
def replaceForbidden (s : String) : String :=
  ⟨s.data.map (fun c => if forbiddenFilenameChars.contains c then '-' else c)⟩

/-- Core of `.replace(/\s+/g, " ")`: the boolean argument records whether the
previous character was part of a whitespace run already emitted as a space. -/
def collapseWsAux : Bool → List Char → List Char
  | _, [] => []
  | prevWs, c :: cs =>
    if jsWhitespace c then
      if prevWs then collapseWsAux true cs
      else ' ' :: collapseWsAux true cs
    else c :: collapseWsAux false cs

/-- The replacement `.replace(/\s+/g, " ")`: collapse each run of whitespace
to a single space. -/
def collapseWs (s : String) : String := ⟨collapseWsAux false s.data⟩

/-- The `sanitizedTitle` computed by `handleCreateNewEntry` (lines 169-172):
trim, replace forbidden characters with `-`, collapse whitespace runs. -/
def sanitizedTitle (newEntryTitle : String) : String :=
  collapseWs (replaceForbidden (jsTrim newEntryTitle))

/-- The `filename` computed by `handleCreateNewEntry` (line 173). -/
def newEntryFilename (newEntryTitle : String) : String :=
  sanitizedTitle newEntryTitle ++ ".md"

/-! ### Backend-facing operations of the component -/

/-- The `loadEntries` callback (lines 52-62).  The `dir?` argument is the
`journalDirectory` the `useCallback` closure captured.  A `list` failure is
caught and logged; the entries list is left unchanged. -/
def loadEntries (b : Backend) (dir? : Option String) (s : AppState) :
    AppState × List Call :=
  match dir? with
  | none => (s, [])
  | some dir =>
    match b.list dir with
    | .ok entryList => ({ s with entries := entryList }, [.list dir])
    | .error _ => (s, [.list dir, .consoleError "Failed to load entries list"])

/-- The `saveEntry` callback (lines 99-117).  `dir?`, `entry?` and `content`
are the values captured by the `useCallback` closure at creation time; the
guard on line 100 reads those captured values.  The awaited `save_journal`
result comes from the backend oracle; on success the status becomes `saved`
and `loadEntries` is invoked when the trimmed content is non-empty; on failure
the status becomes `unsaved` and the error is logged. -/
def saveEntry (b : Backend) (dir? : Option String) (entry? : Option JournalEntry)
    (content : String) (s : AppState) : AppState × List Call :=
  match dir?, entry? with
  | some dir, some entry =>
    let s1 := { s with saveStatus := SaveStatus.saving }
    match b.save entry.filename content dir with
    | .ok _ =>
      let s2 := { s1 with saveStatus := SaveStatus.saved }
      if jsTrim content = "" then
        (s2, [.save entry.filename content dir])
      else
        let r := loadEntries b (some dir) s2
        (r.1, .save entry.filename content dir :: r.2)
    | .error _ =>
      ({ s1 with saveStatus := SaveStatus.unsaved },
        [.save entry.filename content dir,
         .consoleError "Failed to save journal entry"])
  | _, _ => (s, [])

/-- One run of the debounced auto-save effect (lines 120-127).  The cleanup of
the previous run clears any pending timer; then, unless the guard on line 121
returns early, the status becomes `unsaved` and a fresh fixed-delay 1000 ms
timer is started whose callback closes over the current render's
`journalDirectory`, `currentEntry` and `content`. -/
def debounceEffect (s : AppState) : AppState :=
  let s1 := { s with timer := none }
  match s1.journalDirectory, s1.currentEntry with
  | some dir, some entry =>
    { s1 with saveStatus := SaveStatus.unsaved,
              timer := some { delayMs := 1000, dir := some dir,
                              entry := some entry, content := s1.content } }
  | _, _ => s1

/-- Issuance part of the entry-loading effect (lines 81-96): the guard on line
83 reads the render's `journalDirectory` and `currentEntry`; past the guard,
the `load_journal` invoke is issued and becomes the outstanding load. -/
def loadEntryStart (dir? : Option String) (entry? : Option JournalEntry)
    (s : AppState) : AppState × List Call :=
  match dir?, entry? with
  | some dir, some entry =>
    ({ s with pendingLoad := some (entry.filename, dir) },
     [.load entry.filename dir])
  | _, _ => (s, [])

/-- Continuation of the entry-loading effect after `load_journal` resolves
(lines 84-93): on success the buffer becomes the loaded text (`absent` maps to
the empty string via `entry || ""`) and the status becomes `saved`; a load
failure is caught, logged, and changes nothing. -/
def loadEntryResolve (result : Except Unit (Option String)) (s : AppState) :
    AppState × List Call :=
  match result with
  | .ok entry =>
    ({ s with content := entry.getD "", saveStatus := SaveStatus.saved }, [])
  | .error _ => (s, [.consoleError "Failed to load journal entry"])

/-- Effects triggered by a change of `currentEntry`: the entry-loading effect
re-runs (issuing a new load), then the debounced auto-save effect re-runs
(both list `currentEntry` among their dependencies; they run in declaration
order). -/
def switchEffects (s : AppState) : AppState × List Call :=
  let r := loadEntryStart s.journalDirectory s.currentEntry s
  (debounceEffect r.1, r.2)

/-- A buffer edit (`Editor`'s `onChange` calling `setContent`): if the text is
unchanged React bails out; otherwise the content is replaced and the debounced
auto-save effect re-runs (the entry-loading effect does not depend on
`content`). -/
def editStep (t : String) (s : AppState) : AppState :=
  if t = s.content then s else debounceEffect { s with content := t }

/-- Expiry of the pending debounce timer: the scheduled `saveEntry` callback
runs with its captured values.  A fired timer is no longer pending. -/
def timerFireStep (b : Backend) (s : AppState) : AppState × List Call :=
  match s.timer with
  | none => (s, [])
  | some tc => saveEntry b tc.dir tc.entry tc.content { s with timer := none }

/-- Completion of the outstanding `load_journal` invoke: the continuation of
lines 84-93 runs, and if it changed `content` the debounced auto-save effect
re-runs (that effect depends on `content`; `setSaveStatus` triggers no
effect). -/
def loadCompleteStep (b : Backend) (s : AppState) : AppState × List Call :=
  match s.pendingLoad with
  | none => (s, [])
  | some (filename, dir) =>
    let prev := s.content
    let r := loadEntryResolve (b.load filename dir) { s with pendingLoad := none }
    if r.1.content = prev then r else (debounceEffect r.1, r.2)

/-- The `handleSelectEntry` handler (lines 152-154) plus the effects its
`setCurrentEntry` triggers. -/
def handleSelectEntry (e : JournalEntry) (s : AppState) : AppState × List Call :=
  switchEffects { s with currentEntry := some e }

/-- The entry object built for "today" (`todayFilename`, lines 28-29 and
156-163). -/
def todayEntry (today : String) : JournalEntry :=
  { filename := today ++ ".md", entry_type := EntryType.daily,
    title := today, date := some today }

/-- The `handleGoToToday` handler (lines 156-163) plus the effects its
`setCurrentEntry` triggers. -/
def handleGoToToday (today : String) (s : AppState) : AppState × List Call :=
  switchEffects { s with currentEntry := some (todayEntry today) }

/-- The `handleCreateNewEntry` handler (lines 165-186): reject a blank title;
otherwise switch to a fresh titled entry with sanitized filename, empty
buffer, cleared title input and closed modal (all four `set` calls are batched
into one render), plus the effects the `currentEntry`/`content` change
triggers. -/
def handleCreateNewEntry (s : AppState) : AppState × List Call :=
  if jsTrim s.newEntryTitle = "" then (s, [])
  else
    let t := sanitizedTitle s.newEntryTitle
    let newEntry : JournalEntry :=
      { filename := t ++ ".md", entry_type := EntryType.titled,
        title := t, date := none }
    switchEffects { s with currentEntry := some newEntry, content := "",
                           newEntryTitle := "", showNewEntryModal := false }

/-- The `handleDeleteEntry` handler (lines 188-206): guard on directory and
open entry; daily entries are rejected silently; `window.confirm` is the
`confirmed` argument; on a successful `delete_journal` the entry list is
reloaded and the view returns to today (with the effects that switch
triggers); a delete failure is caught and logged. -/
def handleDeleteEntry (b : Backend) (today : String) (confirmed : Bool)
    (s : AppState) : AppState × List Call :=
  match s.journalDirectory, s.currentEntry with
  | some dir, some entry =>
    if entry.entry_type = EntryType.daily then (s, [])
    else if confirmed = false then (s, [])
    else
      match b.delete entry.filename dir with
      | .ok _ =>
        let r1 := loadEntries b (some dir) s
        let r2 := handleGoToToday today r1.1
        (r2.1, Call.delete entry.filename dir :: (r1.2 ++ r2.2))
      | .error _ =>
        (s, [Call.delete entry.filename dir,
             Call.consoleError "Failed to delete entry"])
  | _, _ => (s, [])

/-- User-visible and asynchronous events driving the component. -/
inductive Event where
  | edit (text : String)
  | timerFire
  | loadComplete
  | selectEntry (e : JournalEntry)
  | goToToday
  | openNewEntryModal
  | typeTitle (t : String)
  | createEntry
  | deleteEntry (confirmed : Bool)

/-- One step of the component: dispatch an event to the code it triggers. -/
def step (b : Backend) (today : String) (s : AppState) :
    Event → AppState × List Call
  | .edit t => (editStep t s, [])
  | .timerFire => timerFireStep b s
  | .loadComplete => loadCompleteStep b s
  | .selectEntry e => handleSelectEntry e s
  | .goToToday => handleGoToToday today s
  | .openNewEntryModal => ({ s with showNewEntryModal := true }, [])
  | .typeTitle t => ({ s with newEntryTitle := t }, [])
  | .createEntry => handleCreateNewEntry s
  | .deleteEntry c => handleDeleteEntry b today c s

/-- Run a sequence of events, collecting the trace of backend calls. -/
def run (b : Backend) (today : String) (s : AppState) :
    List Event → AppState × List Call
  | [] => (s, [])
  | ev :: evs =>
    let r1 := step b today s ev
    let r2 := run b today r1.1 evs
    (r2.1, r1.2 ++ r2.2)

/-- Whether a trace element is a `save_journal` invocation. -/
def isSaveCall : Call → Bool
  | .save _ _ _ => true
  | _ => false

/-- The `save_journal` invocations of a trace. -/
def savesOf (cs : List Call) : List Call := cs.filter isSaveCall

/-- Final text of an edit sequence starting after text `t`. -/
def lastEdit : String → List String → String
  | t, [] => t
  | _, t' :: ts => lastEdit t' ts

/-- Each edit in the list changes the buffer relative to its predecessor
(a textarea `onChange` only fires when the value actually changed). -/
def mutatesb : String → List String → Bool
  | _, [] => true
  | c, t :: ts => (t ≠ c : Bool) && mutatesb t ts

/-! ### Concrete fixtures used by witnesses and counterexamples -/

/-- Backend in which every operation succeeds, every file is absent and the
directory listing is empty. -/
def bTest : Backend :=
  { load := fun _ _ => .ok none
    save := fun _ _ _ => .ok ()
    list := fun _ => .ok []
    delete := fun _ _ => .ok () }

/-- Backend in which `save_journal` fails and everything else succeeds. -/
def bFail : Backend :=
  { bTest with save := fun _ _ _ => .error () }

/-- A titled entry used in concrete scenarios. -/
def aEntry : JournalEntry :=
  { filename := "A.md", entry_type := EntryType.titled, title := "A", date := none }

/-- Another titled entry used in concrete scenarios. -/
def bEntry : JournalEntry :=
  { filename := "B.md", entry_type := EntryType.titled, title := "B", date := none }

/-- A state with entry `aEntry` open, interim text `"draft"` and a pending
debounce timer for it. -/
def sPending : AppState :=
  { content := "draft", journalDirectory := some "D",
    saveStatus := SaveStatus.unsaved, newEntryTitle := "",
    showNewEntryModal := false, entries := [aEntry],
    currentEntry := some aEntry,
    timer := some { delayMs := 1000, dir := some "D", entry := some aEntry,
                    content := "draft" },
    pendingLoad := none }

/-- A clean state on today's daily entry with the new-entry modal filled in. -/
def sModal : AppState :=
  { content := "hello", journalDirectory := some "D",
    saveStatus := SaveStatus.saved, newEntryTitle := "Notes",
    showNewEntryModal := true, entries := [],
    currentEntry := some (todayEntry "2026-01-20"),
    timer := none, pendingLoad := none }

/-- A state mid-switch, exactly as `handleSelectEntry bEntry` leaves it from
`sPending`: entry `bEntry` current with its load outstanding, while the buffer
still shows the abandoned entry's text `"draft"`. -/
def sLoading : AppState :=
  { content := "draft", journalDirectory := some "D",
    saveStatus := SaveStatus.unsaved, newEntryTitle := "",
    showNewEntryModal := false, entries := [aEntry],
    currentEntry := some bEntry,
    timer := some { delayMs := 1000, dir := some "D", entry := some bEntry,
                    content := "draft" },
    pendingLoad := some ("B.md", "D") }

/-- Backend in which `load_journal` fails and everything else succeeds. -/
def bLoadFail : Backend :=
  { bTest with load := fun _ _ => .error () }

/-- Invariant relating a pending debounce timer to the current render: the
scheduled callback's captured entry and directory are the current ones. -/
def timerMatchesCurrent (s : AppState) : Prop :=
  ∀ tc, s.timer = some tc →
    tc.entry = s.currentEntry ∧ tc.dir = s.journalDirectory

/-! ### Helper lemmas -/

/-- Running a concatenation of event lists runs them in sequence and
concatenates the traces. -/
theorem run_append (b : Backend) (today : String) (s : AppState)
    (l1 l2 : List Event) :
    run b today s (l1 ++ l2)
      = ((run b today (run b today s l1).1 l2).1,
         (run b today s l1).2 ++ (run b today (run b today s l1).1 l2).2) := by
  induction l1 generalizing s with
  | nil => simp [run]
  | cons ev evs ih => simp [run, ih]

/-- Past its guard, `saveEntry` issues exactly one `save_journal` call,
carrying its captured filename and content, and leaves the timer slot
untouched. -/
theorem savesOf_saveEntry (b : Backend) (d : String) (e : JournalEntry)
    (c : String) (s : AppState) :
    savesOf (saveEntry b (some d) (some e) c s).2 = [Call.save e.filename c d] ∧
    (saveEntry b (some d) (some e) c s).1.timer = s.timer := by
  cases hs : b.save e.filename c d with
  | ok u =>
    by_cases hc : jsTrim c = ""
    · simp [saveEntry, hs, hc, savesOf, isSaveCall]
    · cases hl : b.list d <;>
        simp [saveEntry, hs, hc, loadEntries, hl, savesOf, isSaveCall]
  | error u => simp [saveEntry, hs, savesOf, isSaveCall]

/-- Both guarded branches of `saveEntry` leave the timer slot, the current
entry and the configured directory untouched. -/
theorem saveEntry_frame (b : Backend) (d? : Option String)
    (e? : Option JournalEntry) (c : String) (s : AppState) :
    (saveEntry b d? e? c s).1.timer = s.timer ∧
    (saveEntry b d? e? c s).1.currentEntry = s.currentEntry ∧
    (saveEntry b d? e? c s).1.journalDirectory = s.journalDirectory := by
  cases d? with
  | none => cases e? <;> simp [saveEntry]
  | some d =>
    cases e? with
    | none => simp [saveEntry]
    | some e =>
      cases hs : b.save e.filename c d with
      | ok u =>
        by_cases hc : jsTrim c = ""
        · simp [saveEntry, hs, hc]
        · cases hl : b.list d <;> simp [saveEntry, hs, hc, loadEntries, hl]
      | error u => simp [saveEntry, hs]

/-- The timer invariant only mentions the timer slot, the current entry and
the directory, so it transfers along equality of those fields. -/
theorem timerMatchesCurrent_congr (s s' : AppState)
    (h1 : s'.timer = s.timer) (h2 : s'.currentEntry = s.currentEntry)
    (h3 : s'.journalDirectory = s.journalDirectory)
    (h : timerMatchesCurrent s) : timerMatchesCurrent s' := by
  intro tc htc
  rw [h1] at htc
  rw [h2, h3]
  exact h tc htc

/-- A run of the debounced auto-save effect always re-establishes the timer
invariant: it either clears the timer or schedules one capturing the current
entry and directory. -/
theorem timerMatchesCurrent_debounceEffect (s : AppState) :
    timerMatchesCurrent (debounceEffect s) := by
  intro tc htc
  cases hd : s.journalDirectory with
  | none => simp [debounceEffect, hd] at htc
  | some d =>
    cases he : s.currentEntry with
    | none => simp [debounceEffect, hd, he] at htc
    | some e =>
      simp only [debounceEffect, hd, he] at htc ⊢
      cases htc
      exact ⟨rfl, rfl⟩

/-- An entry switch re-establishes the timer invariant (the debounce effect
re-runs last). -/
theorem timerMatchesCurrent_switchEffects (s : AppState) :
    timerMatchesCurrent (switchEffects s).1 := by
  have h := timerMatchesCurrent_debounceEffect (loadEntryStart s.journalDirectory s.currentEntry s).1
  simpa [switchEffects] using h

/-- A timer expiry preserves the timer invariant: the fired timer is cleared
and `saveEntry` does not touch the timer slot, entry or directory. -/
theorem timerMatchesCurrent_timerFireStep (b : Backend) (s : AppState)
    (h : timerMatchesCurrent s) :
    timerMatchesCurrent (timerFireStep b s).1 := by
  cases ht : s.timer with
  | none => simpa [timerFireStep, ht] using h
  | some tc =>
    intro tc' htc'
    simp only [timerFireStep, ht] at htc'
    rw [(saveEntry_frame b tc.dir tc.entry tc.content { s with timer := none }).1]
      at htc'
    simp at htc'

/-- Completion of an outstanding load preserves the timer invariant. -/
theorem timerMatchesCurrent_loadCompleteStep (b : Backend) (s : AppState)
    (h : timerMatchesCurrent s) :
    timerMatchesCurrent (loadCompleteStep b s).1 := by
  cases hp : s.pendingLoad with
  | none => simpa [loadCompleteStep, hp] using h
  | some fd =>
    obtain ⟨f, dr⟩ := fd
    cases hl : b.load f dr with
    | ok v =>
      by_cases hc : v.getD "" = s.content
      · simp only [loadCompleteStep, hp, hl, loadEntryResolve, hc, if_pos]
        exact timerMatchesCurrent_congr s _ rfl rfl rfl h
      · simp only [loadCompleteStep, hp, hl, loadEntryResolve, hc, if_neg,
          if_false]
        exact timerMatchesCurrent_debounceEffect _
    | error u =>
      simp [loadCompleteStep, hp, hl, loadEntryResolve]
      exact timerMatchesCurrent_congr s _ rfl rfl rfl h

/-- Deleting the current entry preserves the timer invariant. -/
theorem timerMatchesCurrent_handleDeleteEntry (b : Backend) (today : String)
    (conf : Bool) (s : AppState) (h : timerMatchesCurrent s) :
    timerMatchesCurrent (handleDeleteEntry b today conf s).1 := by
  cases hd : s.journalDirectory with
  | none => simpa [handleDeleteEntry, hd] using h
  | some d =>
    cases he : s.currentEntry with
    | none => simpa [handleDeleteEntry, hd, he] using h
    | some e =>
      by_cases hty : e.entry_type = EntryType.daily
      · simpa [handleDeleteEntry, hd, he, hty] using h
      · by_cases hcf : conf = false
        · simpa [handleDeleteEntry, hd, he, hty, hcf] using h
        · cases hdel : b.delete e.filename d with
          | ok u =>
            simp only [handleDeleteEntry, hd, he, hty, hcf, hdel, if_neg,
              if_false, handleGoToToday]
            exact timerMatchesCurrent_switchEffects _
          | error u => simpa [handleDeleteEntry, hd, he, hty, hcf, hdel] using h

/-- Every step of the component preserves the timer invariant. -/
theorem timerMatchesCurrent_step (b : Backend) (today : String) (s : AppState)
    (ev : Event) (h : timerMatchesCurrent s) :
    timerMatchesCurrent (step b today s ev).1 := by
  cases ev with
  | edit t =>
    by_cases hc : t = s.content
    · simpa [step, editStep, hc] using h
    · simp only [step, editStep, hc, if_neg, if_false]
      exact timerMatchesCurrent_debounceEffect _
  | timerFire => exact timerMatchesCurrent_timerFireStep b s h
  | loadComplete => exact timerMatchesCurrent_loadCompleteStep b s h
  | selectEntry e =>
    simp only [step, handleSelectEntry]
    exact timerMatchesCurrent_switchEffects _
  | goToToday =>
    simp only [step, handleGoToToday]
    exact timerMatchesCurrent_switchEffects _
  | openNewEntryModal =>
    exact timerMatchesCurrent_congr s _ rfl rfl rfl h
  | typeTitle t =>
    exact timerMatchesCurrent_congr s _ rfl rfl rfl h
  | createEntry =>
    by_cases hb : jsTrim s.newEntryTitle = ""
    · simpa [step, handleCreateNewEntry, hb] using h
    · simp only [step, handleCreateNewEntry, hb, if_neg, if_false]
      exact timerMatchesCurrent_switchEffects _
  | deleteEntry c => exact timerMatchesCurrent_handleDeleteEntry b today c s h

/-- Under the timer invariant, every `save_journal` call a step issues targets
the filename of the entry that is current when the step runs: abandoned
entries are never written to. -/
theorem step_save_targets_current (b : Backend) (today : String) (s : AppState)
    (ev : Event) (h : timerMatchesCurrent s) :
    ∀ f c d, Call.save f c d ∈ (step b today s ev).2 →
      ∃ en, s.currentEntry = some en ∧ f = en.filename := by
  intro f c d hmem
  cases ev with
  | edit t => simp [step] at hmem
  | timerFire =>
    cases ht : s.timer with
    | none => simp [step, timerFireStep, ht] at hmem
    | some tc =>
      simp only [step, timerFireStep, ht] at hmem
      cases hd : tc.dir with
      | none =>
        rw [hd] at hmem
        cases he : tc.entry <;> simp [saveEntry] at hmem
      | some d' =>
        cases he : tc.entry with
        | none => rw [hd, he] at hmem; simp [saveEntry] at hmem
        | some en =>
          rw [hd, he] at hmem
          have hmem2 : Call.save f c d ∈
              savesOf (saveEntry b (some d') (some en) tc.content
                { s with timer := none }).2 :=
            List.mem_filter.mpr ⟨hmem, by simp [isSaveCall]⟩
          rw [(savesOf_saveEntry b d' en tc.content { s with timer := none }).1]
            at hmem2
          simp only [List.mem_singleton, Call.save.injEq] at hmem2
          refine ⟨en, ?_, hmem2.1⟩
          rw [← (h tc ht).1, he]
  | loadComplete =>
    cases hp : s.pendingLoad with
    | none => simp [step, loadCompleteStep, hp] at hmem
    | some fd =>
      obtain ⟨f', dr⟩ := fd
      cases hl : b.load f' dr with
      | ok v =>
        by_cases hc : v.getD "" = s.content <;>
          simp [step, loadCompleteStep, hp, hl, loadEntryResolve, hc] at hmem
      | error u =>
        simp [step, loadCompleteStep, hp, hl, loadEntryResolve] at hmem
  | selectEntry e =>
    cases hd : s.journalDirectory <;>
      simp [step, handleSelectEntry, switchEffects, loadEntryStart, hd] at hmem
  | goToToday =>
    cases hd : s.journalDirectory <;>
      simp [step, handleGoToToday, switchEffects, loadEntryStart, hd] at hmem
  | openNewEntryModal => simp [step] at hmem
  | typeTitle t => simp [step] at hmem
  | createEntry =>
    by_cases hb : jsTrim s.newEntryTitle = ""
    · simp [step, handleCreateNewEntry, hb] at hmem
    · cases hd : s.journalDirectory <;>
        simp [step, handleCreateNewEntry, hb, switchEffects, loadEntryStart,
          hd] at hmem
  | deleteEntry cf =>
    cases hd : s.journalDirectory with
    | none => simp [step, handleDeleteEntry, hd] at hmem
    | some d' =>
      cases he : s.currentEntry with
      | none => simp [step, handleDeleteEntry, hd, he] at hmem
      | some e =>
        by_cases hty : e.entry_type = EntryType.daily
        · simp [step, handleDeleteEntry, hd, he, hty] at hmem
        · by_cases hcf : cf = false
          · simp [step, handleDeleteEntry, hd, he, hty, hcf] at hmem
          · cases hdel : b.delete e.filename d' with
            | ok u =>
              cases hl : b.list d' <;>
                simp [step, handleDeleteEntry, hd, he, hty, hcf, hdel,
                  loadEntries, hl, handleGoToToday, switchEffects,
                  loadEntryStart] at hmem
            | error u =>
              simp [step, handleDeleteEntry, hd, he, hty, hcf, hdel] at hmem

/-- A sequence of mutating edits on an open entry issues no backend call,
leaves the status `unsaved`, and leaves exactly one pending 1000 ms timer
capturing the final text. -/
theorem run_edits (b : Backend) (today : String) (t : String)
    (ts : List String) :
    ∀ c st nt sm en tm pl d e, mutatesb c (t :: ts) = true →
    run b today
        { content := c, journalDirectory := some d, saveStatus := st,
          newEntryTitle := nt, showNewEntryModal := sm, entries := en,
          currentEntry := some e, timer := tm, pendingLoad := pl }
        ((t :: ts).map Event.edit)
      = ({ content := lastEdit t ts, journalDirectory := some d,
           saveStatus := SaveStatus.unsaved, newEntryTitle := nt,
           showNewEntryModal := sm, entries := en, currentEntry := some e,
           timer := some { delayMs := 1000, dir := some d, entry := some e,
                           content := lastEdit t ts },
           pendingLoad := pl }, []) := by
  induction ts generalizing t with
  | nil =>
    intro c st nt sm en tm pl d e hm
    have ht : t ≠ c := by
      simpa [mutatesb] using hm
    simp [run, step, editStep, ht, debounceEffect, lastEdit]
  | cons t' ts ih =>
    intro c st nt sm en tm pl d e hm
    simp only [mutatesb, Bool.and_eq_true, decide_eq_true_eq] at hm
    obtain ⟨ht, hm2⟩ := hm
    have hm2' : mutatesb t (t' :: ts) = true := by
      simpa [mutatesb, Bool.and_eq_true, decide_eq_true_eq] using hm2
    have := ih t' t SaveStatus.unsaved nt sm en
      (some { delayMs := 1000, dir := some d, entry := some e, content := t })
      pl d e hm2'
    simp only [List.map_cons, run, step, editStep, ht, if_neg, if_false,
      debounceEffect]
    simpa [lastEdit] using this

/-! ### Claim theorems -/

/-- C9.  Titled-entry filename sanitization replaces each of the characters
`< > : " / \ | ? *` individually with `-`, collapses each whitespace run to a
single space and appends `.md`; in particular the golden case
`My: Trip/Notes?` yields exactly `My- Trip-Notes-.md`, a title that is all
forbidden characters becomes all dashes, and interior whitespace runs
collapse to single spaces. -/
theorem sanitize_filename_golden :
    newEntryFilename "My: Trip/Notes?" = "My- Trip-Notes-.md" ∧
    newEntryFilename "<>:\"/\\|?*" = "---------.md" ∧
    newEntryFilename "  My   Trip  " = "My Trip.md" := by
  decide

/-- C4 counterexample.  From `sLoading` — the load of `B.md` outstanding
while the buffer still holds the abandoned text `"draft"` — the load resolving
absent sets the buffer to empty, but the content change re-runs the debounce
effect, so the step ends with SaveStatus `unsaved` (and a pending timer
capturing the empty buffer), not `saved` as the claim states. -/
theorem load_absent_from_dirty_ends_unsaved :
    (loadCompleteStep bTest sLoading).1.content = "" ∧
    (loadCompleteStep bTest sLoading).1.saveStatus = SaveStatus.unsaved ∧
    (loadCompleteStep bTest sLoading).1.saveStatus ≠ SaveStatus.saved := by
  decide

/-- C4 amended.  When `load_journal` resolves with `absent` (`null`), the
resulting buffer is always empty and the load continuation itself (lines
84-93) sets the status to `saved`; the step as a whole ends in that
empty-and-`saved` state exactly when the prior buffer was already empty.
When the prior buffer was non-empty, the content change re-runs the debounce
effect, so the step ends with an empty buffer but SaveStatus `unsaved` and a
fresh timer capturing the empty buffer. -/
theorem load_absent_empty_saved_or_debounced (b : Backend) (c d0 : String)
    (st : SaveStatus) (nt : String) (sm : Bool) (en : List JournalEntry)
    (e : JournalEntry) (tm : Option TimerClosure) (f dr : String)
    (hl : b.load f dr = Except.ok none) :
    (loadCompleteStep b
        { content := c, journalDirectory := some d0, saveStatus := st,
          newEntryTitle := nt, showNewEntryModal := sm, entries := en,
          currentEntry := some e, timer := tm,
          pendingLoad := some (f, dr) }).1.content = "" ∧
    (loadEntryResolve (Except.ok none)
        { content := c, journalDirectory := some d0, saveStatus := st,
          newEntryTitle := nt, showNewEntryModal := sm, entries := en,
          currentEntry := some e, timer := tm,
          pendingLoad := some (f, dr) }).1.saveStatus = SaveStatus.saved ∧
    (c = "" →
      loadCompleteStep b
          { content := c, journalDirectory := some d0, saveStatus := st,
            newEntryTitle := nt, showNewEntryModal := sm, entries := en,
            currentEntry := some e, timer := tm,
            pendingLoad := some (f, dr) }
        = ({ content := "", journalDirectory := some d0,
             saveStatus := SaveStatus.saved, newEntryTitle := nt,
             showNewEntryModal := sm, entries := en, currentEntry := some e,
             timer := tm, pendingLoad := none }, [])) ∧
    (c ≠ "" →
      (loadCompleteStep b
          { content := c, journalDirectory := some d0, saveStatus := st,
            newEntryTitle := nt, showNewEntryModal := sm, entries := en,
            currentEntry := some e, timer := tm,
            pendingLoad := some (f, dr) }).1.saveStatus
          = SaveStatus.unsaved ∧
      (loadCompleteStep b
          { content := c, journalDirectory := some d0, saveStatus := st,
            newEntryTitle := nt, showNewEntryModal := sm, entries := en,
            currentEntry := some e, timer := tm,
            pendingLoad := some (f, dr) }).1.timer
        = some { delayMs := 1000, dir := some d0, entry := some e,
                 content := "" }) := by
  refine ⟨?_, rfl, ?_, ?_⟩
  · by_cases hc : c = ""
    · simp [loadCompleteStep, hl, loadEntryResolve, hc]
    · simp [loadCompleteStep, hl, loadEntryResolve, Ne.symm hc, debounceEffect]
  · intro hc
    simp [loadCompleteStep, hl, loadEntryResolve, hc]
  · intro hc
    constructor <;>
      simp [loadCompleteStep, hl, loadEntryResolve, Ne.symm hc, debounceEffect]

/-- C4 amended, witness: the theorem's non-empty-prior-buffer branch at the
concrete state `sLoading` and backend `bTest` (whose load returns absent). -/
theorem load_absent_empty_saved_or_debounced_witness :
    (loadCompleteStep bTest sLoading).1.content = "" ∧
    (loadCompleteStep bTest sLoading).1.saveStatus = SaveStatus.unsaved ∧
    (loadCompleteStep bTest sLoading).1.timer
      = some { delayMs := 1000, dir := some "D", entry := some bEntry,
               content := "" } := by
  have h := load_absent_empty_saved_or_debounced bTest "draft" "D"
    SaveStatus.unsaved "" false [aEntry] bEntry
    (some ⟨1000, some "D", some bEntry, "draft"⟩) "B.md" "D" rfl
  exact ⟨h.1, (h.2.2.2 (by decide)).1, (h.2.2.2 (by decide)).2⟩

/-- C5 counterexample.  A failing load does not reset the buffer to empty:
from the state `sPending`, whose buffer holds the previously displayed text
`"draft"`, the load-failure continuation leaves that text in place — and at
the step level, `sLoading` with a failing backend likewise keeps `"draft"` —
refuting the claim that the buffer falls back to empty on load failure. -/
theorem load_failure_keeps_previous_buffer :
    (loadEntryResolve (Except.error ()) sPending).1.content = "draft" ∧
    (loadCompleteStep bLoadFail sLoading).1.content = "draft" ∧
    "draft" ≠ "" := by
  decide

/-- C5 amended.  A load failure is swallowed: the only observable effect is a
console diagnostic.  The continuation leaves the whole state — in particular
the buffer — unchanged rather than resetting it to empty, and the step as a
whole only discards the outstanding load (since the content did not change,
no debounce re-run occurs); so only a buffer that was already empty behaves
as if the entry had never been written. -/
theorem load_failure_swallowed_buffer_unchanged (b : Backend) (s : AppState)
    (f d : String) (hp : s.pendingLoad = some (f, d))
    (hl : b.load f d = Except.error ()) :
    (∀ s' : AppState, loadEntryResolve (Except.error ()) s'
      = (s', [Call.consoleError "Failed to load journal entry"])) ∧
    loadCompleteStep b s
      = ({ s with pendingLoad := none },
         [Call.consoleError "Failed to load journal entry"]) := by
  refine ⟨fun s' => rfl, ?_⟩
  simp [loadCompleteStep, hp, hl, loadEntryResolve]

/-- C5 amended, witness: the theorem at the concrete state `sLoading` and the
failing backend `bLoadFail`. -/
theorem load_failure_swallowed_buffer_unchanged_witness :
    (∀ s' : AppState, loadEntryResolve (Except.error ()) s'
      = (s', [Call.consoleError "Failed to load journal entry"])) ∧
    loadCompleteStep bLoadFail sLoading
      = ({ sLoading with pendingLoad := none },
         [Call.consoleError "Failed to load journal entry"]) :=
  load_failure_swallowed_buffer_unchanged bLoadFail sLoading "B.md" "D"
    rfl rfl

/-- C6 counterexample.  After a successful save of the whitespace-only buffer
`" "` — which is non-empty — no `list_journal_entries` refresh is issued
(the code gates the refresh on `content.trim() !== ""`, not on non-emptiness),
refuting the claimed "if and only if the Buffer is non-empty". -/
theorem save_success_whitespace_no_refresh :
    (saveEntry bTest (some "D") (some aEntry) " " sPending).2
      = [Call.save "A.md" " " "D"] ∧
    (" " : String) ≠ "" := by
  decide

/-- C6 amended.  On save success the status becomes `saved`, and the
EntryList refresh (a `list_journal_entries` call) is issued if and only if
the buffer content trimmed of whitespace is non-empty. -/
theorem save_success_status_refresh_iff_nonblank (b : Backend) (d : String)
    (e : JournalEntry) (c : String) (s : AppState)
    (hok : b.save e.filename c d = Except.ok ()) :
    (saveEntry b (some d) (some e) c s).1.saveStatus = SaveStatus.saved ∧
    ((∃ d', Call.list d' ∈ (saveEntry b (some d) (some e) c s).2) ↔
      jsTrim c ≠ "") := by
  by_cases hc : jsTrim c = ""
  · simp [saveEntry, hok, hc]
  · cases hl : b.list d with
    | ok l => simp [saveEntry, hok, hc, loadEntries, hl]
    | error u => simp [saveEntry, hok, hc, loadEntries, hl]

/-- C6 amended, witness: the theorem at the concrete backend `bTest`, entry
`aEntry`, content `"x"` and state `sPending`. -/
theorem save_success_status_refresh_iff_nonblank_witness :
    (saveEntry bTest (some "D") (some aEntry) "x" sPending).1.saveStatus
        = SaveStatus.saved ∧
    ((∃ d', Call.list d' ∈ (saveEntry bTest (some "D") (some aEntry) "x"
        sPending).2) ↔ jsTrim "x" ≠ "") :=
  save_success_status_refresh_iff_nonblank bTest "D" aEntry "x" sPending rfl

/-- C7.  On save failure the status becomes `unsaved` and nothing else in the
state changes — the dirty buffer content is preserved — and the failure is
surfaced only as the failed `save_journal` call plus a console diagnostic
(no dialog, no other backend call). -/
theorem save_failure_sets_unsaved_preserves_buffer (b : Backend) (d : String)
    (e : JournalEntry) (c : String) (s : AppState)
    (herr : b.save e.filename c d = Except.error ()) :
    saveEntry b (some d) (some e) c s
      = ({ s with saveStatus := SaveStatus.unsaved },
         [Call.save e.filename c d,
          Call.consoleError "Failed to save journal entry"]) := by
  simp [saveEntry, herr]

/-- C7, witness: the theorem at the concrete failing backend `bFail`. -/
theorem save_failure_sets_unsaved_preserves_buffer_witness :
    saveEntry bFail (some "D") (some aEntry) "x" sPending
      = ({ sPending with saveStatus := SaveStatus.unsaved },
         [Call.save "A.md" "x" "D",
          Call.consoleError "Failed to save journal entry"]) :=
  save_failure_sets_unsaved_preserves_buffer bFail "D" aEntry "x" sPending rfl

/-- C10.  Every backend-facing operation begins with a guard: `saveEntry`
(line 100) returns without any backend call when its captured directory or
entry is null; the entry-loading effect (line 83) issues no load when the
directory or entry is null; `loadEntries` (line 53) issues no list when the
directory is null; `handleDeleteEntry` (line 189) issues no delete when the
directory is null or no entry is open. -/
theorem backend_call_guards :
    (∀ b e? c s, saveEntry b none e? c s = (s, [])) ∧
    (∀ b d c s, saveEntry b (some d) none c s = (s, [])) ∧
    (∀ e? s, loadEntryStart none e? s = (s, [])) ∧
    (∀ d s, loadEntryStart (some d) none s = (s, [])) ∧
    (∀ b s, loadEntries b none s = (s, [])) ∧
    (∀ b today conf c st nt sm en ce tm pl,
      handleDeleteEntry b today conf
          { content := c, journalDirectory := none, saveStatus := st,
            newEntryTitle := nt, showNewEntryModal := sm, entries := en,
            currentEntry := ce, timer := tm, pendingLoad := pl }
        = ({ content := c, journalDirectory := none, saveStatus := st,
             newEntryTitle := nt, showNewEntryModal := sm, entries := en,
             currentEntry := ce, timer := tm, pendingLoad := pl }, [])) ∧
    (∀ b today conf c d st nt sm en tm pl,
      handleDeleteEntry b today conf
          { content := c, journalDirectory := some d, saveStatus := st,
            newEntryTitle := nt, showNewEntryModal := sm, entries := en,
            currentEntry := none, timer := tm, pendingLoad := pl }
        = ({ content := c, journalDirectory := some d, saveStatus := st,
             newEntryTitle := nt, showNewEntryModal := sm, entries := en,
             currentEntry := none, timer := tm, pendingLoad := pl }, [])) := by
  refine ⟨?_, ?_, ?_, ?_, ?_, ?_, ?_⟩ <;> intros <;> rfl

/-- C8.  `handleDeleteEntry` on a daily entry is a complete no-op that issues
no backend call at all (in particular no `delete_journal`); on a titled entry,
after confirmation and a successful backend delete, the entry list is
refreshed from `list_journal_entries` and the current entry becomes the daily
entry for the current date (whose load is issued and whose debounce effect
re-runs, exactly as for any entry switch). -/
theorem delete_guard_daily_and_titled_flow :
    (∀ b today conf c d st nt sm en tm pl fn ti da,
      handleDeleteEntry b today conf
          { content := c, journalDirectory := some d, saveStatus := st,
            newEntryTitle := nt, showNewEntryModal := sm, entries := en,
            currentEntry := some ⟨fn, EntryType.daily, ti, da⟩,
            timer := tm, pendingLoad := pl }
        = ({ content := c, journalDirectory := some d, saveStatus := st,
             newEntryTitle := nt, showNewEntryModal := sm, entries := en,
             currentEntry := some ⟨fn, EntryType.daily, ti, da⟩,
             timer := tm, pendingLoad := pl }, [])) ∧
    (∀ b today c d st nt sm en tm pl fn ti da l,
      b.delete fn d = Except.ok () → b.list d = Except.ok l →
      handleDeleteEntry b today true
          { content := c, journalDirectory := some d, saveStatus := st,
            newEntryTitle := nt, showNewEntryModal := sm, entries := en,
            currentEntry := some ⟨fn, EntryType.titled, ti, da⟩,
            timer := tm, pendingLoad := pl }
        = ({ content := c, journalDirectory := some d,
             saveStatus := SaveStatus.unsaved, newEntryTitle := nt,
             showNewEntryModal := sm, entries := l,
             currentEntry := some (todayEntry today),
             timer := some { delayMs := 1000, dir := some d,
                             entry := some (todayEntry today), content := c },
             pendingLoad := some (today ++ ".md", d) },
           [Call.delete fn d, Call.list d, Call.load (today ++ ".md") d])) := by
  constructor
  · intros; rfl
  · intro b today c d st nt sm en tm pl fn ti da l hdel hlist
    simp [handleDeleteEntry, hdel, loadEntries, hlist, handleGoToToday,
      switchEffects, loadEntryStart, debounceEffect, todayEntry]

/-- C8, witness: the theorem's titled-entry component at the concrete backend
`bTest` and the state `sPending` (whose open entry `A.md` is titled). -/
theorem delete_guard_daily_and_titled_flow_witness :
    handleDeleteEntry bTest "2026-01-20" true
        { content := "draft", journalDirectory := some "D",
          saveStatus := SaveStatus.unsaved, newEntryTitle := "",
          showNewEntryModal := false, entries := [aEntry],
          currentEntry := some ⟨"A.md", EntryType.titled, "A", none⟩,
          timer := none, pendingLoad := none }
      = ({ content := "draft", journalDirectory := some "D",
           saveStatus := SaveStatus.unsaved, newEntryTitle := "",
           showNewEntryModal := false, entries := [],
           currentEntry := some (todayEntry "2026-01-20"),
           timer := some { delayMs := 1000, dir := some "D",
                           entry := some (todayEntry "2026-01-20"),
                           content := "draft" },
           pendingLoad := some ("2026-01-20" ++ ".md", "D") },
         [Call.delete "A.md" "D", Call.list "D",
          Call.load ("2026-01-20" ++ ".md") "D"]) :=
  delete_guard_daily_and_titled_flow.2 bTest "2026-01-20" "draft" "D"
    SaveStatus.unsaved "" false [aEntry] none none "A.md" "A" none [] rfl rfl

/-- C3 counterexample.  From `sModal` (directory set, today's entry open, the
new-entry dialog filled with the title `Notes`), creating the titled entry and
then letting the debounce timer expire — with no edit event anywhere in the
trace — issues `save_journal("Notes.md", "", "D")`, creating the file: the
debounce effect re-runs on the `currentEntry` change and schedules a save of
the empty buffer, so merely creating the entry does write a file, refuting
the claim that no save is issued until a first edit completes a debounce
cycle. -/
theorem create_entry_saves_empty_file :
    savesOf (run bTest "2026-01-20" sModal
        [Event.createEntry, Event.timerFire]).2
      = [Call.save "Notes.md" "" "D"] ∧
    (run bTest "2026-01-20" sModal
        [Event.createEntry, Event.timerFire]).1.content = "" := by
  decide

/-- C3 amended.  Creating a titled entry with a non-blank title sets the
buffer to empty, and the creation step itself issues no `save_journal` call
(it only issues the load of the new entry); opening the new-entry dialog
issues no backend call at all.  However, creation restarts the debounce
timer, capturing the empty buffer under the new entry's filename, so the file
is written when that timer next fires even if no edit ever occurs. -/
theorem create_entry_defers_save_issue (b : Backend) (today : String)
    (c d : String) (st : SaveStatus) (nt : String) (sm : Bool)
    (en : List JournalEntry) (ce : Option JournalEntry)
    (tm : Option TimerClosure) (pl : Option (String × String))
    (hnb : jsTrim nt ≠ "") :
    (handleCreateNewEntry
        { content := c, journalDirectory := some d, saveStatus := st,
          newEntryTitle := nt, showNewEntryModal := sm, entries := en,
          currentEntry := ce, timer := tm, pendingLoad := pl }).1.content
      = "" ∧
    savesOf (handleCreateNewEntry
        { content := c, journalDirectory := some d, saveStatus := st,
          newEntryTitle := nt, showNewEntryModal := sm, entries := en,
          currentEntry := ce, timer := tm, pendingLoad := pl }).2 = [] ∧
    (handleCreateNewEntry
        { content := c, journalDirectory := some d, saveStatus := st,
          newEntryTitle := nt, showNewEntryModal := sm, entries := en,
          currentEntry := ce, timer := tm, pendingLoad := pl }).1.timer
      = some { delayMs := 1000, dir := some d,
               entry := some ⟨newEntryFilename nt, EntryType.titled,
                 sanitizedTitle nt, none⟩,
               content := "" } ∧
    (step b today
        { content := c, journalDirectory := some d, saveStatus := st,
          newEntryTitle := nt, showNewEntryModal := sm, entries := en,
          currentEntry := ce, timer := tm, pendingLoad := pl }
        Event.openNewEntryModal).2 = [] := by
  refine ⟨?_, ?_, ?_, rfl⟩ <;>
    simp [handleCreateNewEntry, hnb, switchEffects, loadEntryStart,
      debounceEffect, savesOf, isSaveCall, newEntryFilename]

/-- C3 amended, witness: the theorem at the concrete state `sModal`. -/
theorem create_entry_defers_save_issue_witness :
    (handleCreateNewEntry
        { content := "hello", journalDirectory := some "D",
          saveStatus := SaveStatus.saved, newEntryTitle := "Notes",
          showNewEntryModal := true, entries := [],
          currentEntry := some (todayEntry "2026-01-20"), timer := none,
          pendingLoad := none }).1.content = "" ∧
    savesOf (handleCreateNewEntry
        { content := "hello", journalDirectory := some "D",
          saveStatus := SaveStatus.saved, newEntryTitle := "Notes",
          showNewEntryModal := true, entries := [],
          currentEntry := some (todayEntry "2026-01-20"), timer := none,
          pendingLoad := none }).2 = [] ∧
    (handleCreateNewEntry
        { content := "hello", journalDirectory := some "D",
          saveStatus := SaveStatus.saved, newEntryTitle := "Notes",
          showNewEntryModal := true, entries := [],
          currentEntry := some (todayEntry "2026-01-20"), timer := none,
          pendingLoad := none }).1.timer
      = some { delayMs := 1000, dir := some "D",
               entry := some ⟨newEntryFilename "Notes", EntryType.titled,
                 sanitizedTitle "Notes", none⟩,
               content := "" } ∧
    (step bTest "2026-01-20"
        { content := "hello", journalDirectory := some "D",
          saveStatus := SaveStatus.saved, newEntryTitle := "Notes",
          showNewEntryModal := true, entries := [],
          currentEntry := some (todayEntry "2026-01-20"), timer := none,
          pendingLoad := none }
        Event.openNewEntryModal).2 = [] :=
  create_entry_defers_save_issue bTest "2026-01-20" "hello" "D"
    SaveStatus.saved "Notes" true [] (some (todayEntry "2026-01-20")) none none
    (by decide)

/-- C1.  With an entry open, every buffer mutation sets the status to
`unsaved`, cancels the pending timer and starts a fresh fixed-delay 1000 ms
timer capturing the current buffer: after any non-empty sequence of mutating
edits with no intervening timer expiry (edits less than 1000 ms apart), the
status is `unsaved`, exactly one fresh timer is pending and it captures the
final text, no backend call was made, and when the timer then fires exactly
one `save_journal` is issued, carrying the final buffer state (no
intermediate state is ever passed to save), after which no timer remains. -/
theorem autosave_debounce_single_flush (b : Backend) (today t : String)
    (ts : List String) (c : String) (st : SaveStatus) (nt : String)
    (sm : Bool) (en : List JournalEntry) (tm : Option TimerClosure)
    (pl : Option (String × String)) (d : String) (e : JournalEntry)
    (hm : mutatesb c (t :: ts) = true) :
    (run b today
        { content := c, journalDirectory := some d, saveStatus := st,
          newEntryTitle := nt, showNewEntryModal := sm, entries := en,
          currentEntry := some e, timer := tm, pendingLoad := pl }
        ((t :: ts).map Event.edit)).1.saveStatus = SaveStatus.unsaved ∧
    (run b today
        { content := c, journalDirectory := some d, saveStatus := st,
          newEntryTitle := nt, showNewEntryModal := sm, entries := en,
          currentEntry := some e, timer := tm, pendingLoad := pl }
        ((t :: ts).map Event.edit)).1.timer
      = some { delayMs := 1000, dir := some d, entry := some e,
               content := lastEdit t ts } ∧
    (run b today
        { content := c, journalDirectory := some d, saveStatus := st,
          newEntryTitle := nt, showNewEntryModal := sm, entries := en,
          currentEntry := some e, timer := tm, pendingLoad := pl }
        ((t :: ts).map Event.edit)).2 = [] ∧
    savesOf (run b today
        { content := c, journalDirectory := some d, saveStatus := st,
          newEntryTitle := nt, showNewEntryModal := sm, entries := en,
          currentEntry := some e, timer := tm, pendingLoad := pl }
        ((t :: ts).map Event.edit ++ [Event.timerFire])).2
      = [Call.save e.filename (lastEdit t ts) d] ∧
    (run b today
        { content := c, journalDirectory := some d, saveStatus := st,
          newEntryTitle := nt, showNewEntryModal := sm, entries := en,
          currentEntry := some e, timer := tm, pendingLoad := pl }
        ((t :: ts).map Event.edit ++ [Event.timerFire])).1.timer = none := by
  have hmid := run_edits b today t ts c st nt sm en tm pl d e hm
  refine ⟨?_, ?_, ?_, ?_, ?_⟩
  · rw [hmid]
  · rw [hmid]
  · rw [hmid]
  · rw [run_append, hmid]
    simp only [run, step, timerFireStep, List.nil_append, List.append_nil]
    exact (savesOf_saveEntry b d e (lastEdit t ts)
      { content := lastEdit t ts, journalDirectory := some d,
        saveStatus := SaveStatus.unsaved, newEntryTitle := nt,
        showNewEntryModal := sm, entries := en, currentEntry := some e,
        timer := none, pendingLoad := pl }).1
  · rw [run_append, hmid]
    simp only [run, step, timerFireStep, List.nil_append, List.append_nil]
    exact (savesOf_saveEntry b d e (lastEdit t ts)
      { content := lastEdit t ts, journalDirectory := some d,
        saveStatus := SaveStatus.unsaved, newEntryTitle := nt,
        showNewEntryModal := sm, entries := en, currentEntry := some e,
        timer := none, pendingLoad := pl }).2

/-- C1, witness: the theorem at the two-edit sequence `"He"`, `"Hello"` on a
clean open entry `aEntry` with the concrete backend `bTest`. -/
theorem autosave_debounce_single_flush_witness :
    (run bTest "2026-01-20"
        { content := "", journalDirectory := some "D",
          saveStatus := SaveStatus.saved, newEntryTitle := "",
          showNewEntryModal := false, entries := [aEntry],
          currentEntry := some aEntry, timer := none, pendingLoad := none }
        (["He", "Hello"].map Event.edit)).1.saveStatus
      = SaveStatus.unsaved ∧
    (run bTest "2026-01-20"
        { content := "", journalDirectory := some "D",
          saveStatus := SaveStatus.saved, newEntryTitle := "",
          showNewEntryModal := false, entries := [aEntry],
          currentEntry := some aEntry, timer := none, pendingLoad := none }
        (["He", "Hello"].map Event.edit)).1.timer
      = some { delayMs := 1000, dir := some "D", entry := some aEntry,
               content := lastEdit "He" ["Hello"] } ∧
    (run bTest "2026-01-20"
        { content := "", journalDirectory := some "D",
          saveStatus := SaveStatus.saved, newEntryTitle := "",
          showNewEntryModal := false, entries := [aEntry],
          currentEntry := some aEntry, timer := none, pendingLoad := none }
        (["He", "Hello"].map Event.edit)).2 = [] ∧
    savesOf (run bTest "2026-01-20"
        { content := "", journalDirectory := some "D",
          saveStatus := SaveStatus.saved, newEntryTitle := "",
          showNewEntryModal := false, entries := [aEntry],
          currentEntry := some aEntry, timer := none, pendingLoad := none }
        (["He", "Hello"].map Event.edit ++ [Event.timerFire])).2
      = [Call.save aEntry.filename (lastEdit "He" ["Hello"]) "D"] ∧
    (run bTest "2026-01-20"
        { content := "", journalDirectory := some "D",
          saveStatus := SaveStatus.saved, newEntryTitle := "",
          showNewEntryModal := false, entries := [aEntry],
          currentEntry := some aEntry, timer := none, pendingLoad := none }
        (["He", "Hello"].map Event.edit ++ [Event.timerFire])).1.timer
      = none :=
  autosave_debounce_single_flush bTest "2026-01-20" "He" ["Hello"] ""
    SaveStatus.saved "" false [aEntry] none none "D" aEntry (by decide)

/-- C2 counterexample.  From `sPending` — entry `A.md` open with interim
(not yet flushed) buffer `"draft"` and a debounce timer pending — switching
to entry `B.md` and letting the debounce timer expire before the load of
`B.md` completes issues `save_journal("B.md", "draft", "D")`: a Storage
Backend save carrying the abandoned entry's interim buffer content (written
under the new entry's filename), because the debounce effect re-runs on the
switch and schedules a fresh timer capturing the old buffer.  This refutes
the claim that no save carrying the interim content is ever triggered. -/
theorem switch_can_flush_interim_content :
    sPending.currentEntry = some aEntry ∧
    sPending.timer = some { delayMs := 1000, dir := some "D",
                            entry := some aEntry, content := "draft" } ∧
    savesOf (run bTest "2026-01-20" sPending
        [Event.selectEntry bEntry, Event.timerFire]).2
      = [Call.save "B.md" "draft" "D"] := by
  decide

/-- C2 amended.  On an entry switch the previously pending timer is cancelled
and never fires: the switch itself issues no save, and the timer pending
after the switch captures the new entry.  More generally, under the invariant
that the pending timer captures the current entry (which every step
preserves), every `save_journal` call any step issues targets the filename of
the entry current at that step — so no save is ever issued to the abandoned
entry's file while it is not current.  What the original claim misses is that
the restarted timer carries the old buffer content under the new filename
until the new entry's load completes (see the counterexample). -/
theorem switch_retargets_timer_saves_current_only (b : Backend)
    (today : String) (s : AppState) (e : JournalEntry)
    (h : timerMatchesCurrent s) :
    (∀ f c d, Call.save f c d ∉ (handleSelectEntry e s).2) ∧
    (∀ tc, (handleSelectEntry e s).1.timer = some tc → tc.entry = some e) ∧
    (∀ ev, timerMatchesCurrent (step b today s ev).1) ∧
    (∀ ev f c d, Call.save f c d ∈ (step b today s ev).2 →
      ∃ en, s.currentEntry = some en ∧ f = en.filename) := by
  refine ⟨?_, ?_, fun ev => timerMatchesCurrent_step b today s ev h,
    fun ev => step_save_targets_current b today s ev h⟩
  · intro f c d hmem
    cases hd : s.journalDirectory <;>
      simp [handleSelectEntry, switchEffects, loadEntryStart, hd] at hmem
  · intro tc htc
    cases hd : s.journalDirectory with
    | none =>
      simp [handleSelectEntry, switchEffects, loadEntryStart, hd,
        debounceEffect] at htc
    | some d2 =>
      simp only [handleSelectEntry, switchEffects, loadEntryStart, hd,
        debounceEffect] at htc
      cases htc
      rfl

/-- C2 amended, witness: after switching from `aEntry` (dirty, timer pending)
to `bEntry` in the concrete state `sPending`, no save to the abandoned file
`A.md` with its interim content is in the switch's trace. -/
theorem switch_retargets_timer_saves_current_only_witness :
    Call.save "A.md" "draft" "D" ∉ (handleSelectEntry bEntry sPending).2 := by
  have hinv : timerMatchesCurrent sPending := by
    intro tc htc
    have heq : some (⟨1000, some "D", some aEntry, "draft"⟩ : TimerClosure)
        = some tc := htc
    cases heq
    exact ⟨rfl, rfl⟩
  exact (switch_retargets_timer_saves_current_only bTest "2026-01-20" sPending
    bEntry hinv).1 "A.md" "draft" "D"
